import Mathlib

/-!
Verification of the return/advantage estimation and gradient-correction
pipeline of the xagents repository (src/acer.py, src/ppo.py) against its
natural-language specification.

Modelling conventions:
* TensorFlow float tensors are embedded as rational numbers (`ℚ`); all the
  operations appearing in the verified code paths (add, sub, mul, div, min,
  max, square, mean) are exact on `ℚ`, so float rounding is the only
  difference and every concrete scenario below is checked exactly.
* All the TF ops inside `ACER.calculate_returns` and `PPO.calculate_returns`
  are elementwise across the environment axis, so those recursions are
  embedded per environment: a step datum is a scalar.  The flat
  `(actor*step)` layout handled by `ACER.flat_to_steps` is embedded
  separately (`flat_to_steps` / `stack_steps` below) on index functions.
* `tf.stop_gradient` is the identity on values and is dropped.
* `tf.math.log` is an external real operation; it is passed as an explicit
  function parameter `logFn` where it occurs.
-/

namespace XAgents

/-- Truncated importance weight used inside the Retrace recursion:
`tf.minimum(1.0, selected_importance)` (src/acer.py line 192). -/
def importanceBar (ρ : ℚ) : ℚ := min 1 ρ

/-- Truncated importance weight used in the actor-gain term:
`tf.minimum(self.importance_c, selected_importance)` (src/acer.py line 238). -/
def truncatedImportance (c ρ : ℚ) : ℚ := min c ρ

/-- Backward recursion of `ACER.calculate_returns` (src/acer.py lines
193-204), per environment.  The five parallel lists are the per-step
rewards, dones, selected critic logits, values and selected importance
weights; `boot` is `values[n_steps]`.  Returns the pair of the corrected
`current_return` handed to step `i-1` and the list of returns for the steps
processed so far (in chronological order, as produced by `returns[::-1]`). -/
def acerReturnsGo (γ : ℚ) :
    List ℚ → List ℚ → List ℚ → List ℚ → List ℚ → ℚ → ℚ × List ℚ
  | r :: rs, d :: ds, q :: qs, v :: vs, ρ :: ρs, boot =>
      let p := acerReturnsGo γ rs ds qs vs ρs boot
      let ret := r + γ * p.1 * (1 - d)
      (importanceBar ρ * (ret - q) + v, ret :: p.2)
  | _, _, _, _, _, boot => (boot, [])

/-- Embedding of `ACER.calculate_returns` (src/acer.py lines 175-205), per environment:
the list of n-step Retrace returns. -/
def acer_calculate_returns (γ : ℚ)
    (rewards dones qs values ρs : List ℚ) (boot : ℚ) : List ℚ :=
  (acerReturnsGo γ rewards dones qs values ρs boot).2

/-- Backward GAE recursion of `PPO.calculate_returns` (src/ppo.py lines
57-72), per environment.  `gaeAdv γ lam rewards values dones boot` is the
list of advantages.  The code extends `dones` by duplicating its final
entry (`dones = np.concatenate([dones, np.expand_dims(dones[-1], 0)])`),
which here is `ds.headD d`: the next done of the last step is its own done.
`values` is extended by the bootstrap value `boot` (`vs.headD boot`), and
`last_lam` starts at `0` (`(gaeAdv ...).headD 0`). -/
def gaeAdv (γ lam : ℚ) : List ℚ → List ℚ → List ℚ → ℚ → List ℚ
  | r :: rs, v :: vs, d :: ds, boot =>
      (r + γ * (vs.headD boot) * (1 - ds.headD d) - v
          + γ * lam * (1 - ds.headD d) * ((gaeAdv γ lam rs vs ds boot).headD 0))
        :: gaeAdv γ lam rs vs ds boot
  | _, _, _, _ => []

/-- Embedding of `PPO.calculate_returns` (src/ppo.py lines 45-73), per environment:
`advantages + values[:-1]`. -/
def ppo_calculate_returns (γ lam : ℚ)
    (rewards values dones : List ℚ) (boot : ℚ) : List ℚ :=
  List.zipWith (· + ·) (gaeAdv γ lam rewards values dones boot) values

end XAgents

namespace XAgents

/-- C1: the concrete Retrace scenario.  With `n_steps=2`, `gamma=0.9`,
`rewards=[1,2]`, `dones=[0,0]`, `selected_critic_logits=[0.6,0.5]`,
`values=[0.5,0.4]` with bootstrap `0.3`, `selected_importance=[2,0.5]`,
the off-policy `calculate_returns` yields exactly
`returns = [2.1565, 2.27]`. -/
theorem retrace_scenario :
    acer_calculate_returns (9/10) [1, 2] [0, 0] [3/5, 1/2] [1/2, 2/5]
      [2, 1/2] (3/10) = [21565/10000, 227/100] := by
  simp only [acer_calculate_returns, acerReturnsGo, importanceBar]
  norm_num

/-- C3 counterexample: on the concrete GAE scenario (`gamma=0.99`,
`lambda=0.95`, `rewards=[1,0]`, `values=[0.5,0.4]`, `dones=[0,1]`,
bootstrap `0`) the code's advantages are `[0.5, -0.4]`, not
`[0.52378, -0.4]` as claimed: at step 0 the gating factor is
`1 - dones[1] = 0`, and the claimed `0.52378` misses the true value by
`0.02378 > 0.02`, far beyond floating tolerance. -/
theorem gae_scenario_counterexample :
    gaeAdv (99/100) (95/100) [1, 0] [1/2, 2/5] [0, 1] 0 = [1/2, -(2/5)] ∧
    (52378/100000 : ℚ) - 1/2 > 1/50 := by
  constructor
  · simp only [gaeAdv, List.headD_cons, List.headD_nil]
    norm_num
  · norm_num

/-- C3 amended: on the concrete GAE scenario the on-policy
`calculate_returns` yields `advantage[1] = -0.4` and `advantage[0] = 0.5`
(the step-0 bootstrap and smoothing terms are zeroed by
`1 - dones[1] = 0`), so `return[0] = 1.0` and `return[1] = 0.0`. -/
theorem gae_scenario_amended :
    gaeAdv (99/100) (95/100) [1, 0] [1/2, 2/5] [0, 1] 0 = [1/2, -(2/5)] ∧
    ppo_calculate_returns (99/100) (95/100) [1, 0] [1/2, 2/5] [0, 1] 0
      = [1, 0] := by
  constructor
  · simp only [gaeAdv, List.headD_cons, List.headD_nil]
    norm_num
  · simp only [ppo_calculate_returns, gaeAdv, List.headD_cons, List.headD_nil]
    norm_num

/-- Length of the GAE advantage list equals the number of steps when the
input lists agree in length. -/
lemma gaeAdv_length (γ lam : ℚ) : ∀ (rs vs ds : List ℚ) (boot : ℚ),
    rs.length = vs.length → rs.length = ds.length →
    (gaeAdv γ lam rs vs ds boot).length = rs.length := by
  intro rs
  induction rs with
  | nil => intro vs ds boot h1 h2; simp [gaeAdv]
  | cons r rs ih =>
    intro vs ds boot h1 h2
    cases vs with
    | nil => simp at h1
    | cons v vs =>
      cases ds with
      | nil => simp at h2
      | cons d ds =>
        simp only [gaeAdv, List.length_cons]
        exact congrArg Nat.succ (ih vs ds boot (by simpa using h1) (by simpa using h2))

/-- C10: the done-flag sequence is extended by duplicating its final entry,
so the last step of the GAE recursion is gated by its own done flag: for
any batch ending in step `(r, v, d)`, the last advantage is exactly
`r + gamma * bootstrap * (1 - d) - v` — in particular a terminal final
transition (`d = 1`) receives no bootstrap contribution. -/
theorem gae_last_step (γ lam r v d boot : ℚ) :
    ∀ (rs vs ds : List ℚ), rs.length = vs.length → rs.length = ds.length →
    (gaeAdv γ lam (rs ++ [r]) (vs ++ [v]) (ds ++ [d]) boot).getLast? =
      some (r + γ * boot * (1 - d) - v) := by
  intro rs
  induction rs with
  | nil =>
    intro vs ds h1 h2
    cases vs with
    | cons v' vs => simp at h1
    | nil =>
      cases ds with
      | cons d' ds => simp at h2
      | nil =>
        simp [gaeAdv, List.headD_nil]
  | cons r' rs ih =>
    intro vs ds h1 h2
    cases vs with
    | nil => simp at h1
    | cons v' vs =>
      cases ds with
      | nil => simp at h2
      | cons d' ds =>
        have h1' : rs.length = vs.length := by simpa using h1
        have h2' : rs.length = ds.length := by simpa using h2
        have hlen : (gaeAdv γ lam (rs ++ [r]) (vs ++ [v]) (ds ++ [d]) boot).length
            = rs.length + 1 := by
          rw [gaeAdv_length γ lam (rs ++ [r]) (vs ++ [v]) (ds ++ [d]) boot]
          · simp
          · simp [h1']
          · simp [h2']
        have hne : gaeAdv γ lam (rs ++ [r]) (vs ++ [v]) (ds ++ [d]) boot ≠ [] := by
          intro hc
          rw [hc] at hlen
          simp at hlen
        obtain ⟨x, l, hxl⟩ := List.exists_cons_of_ne_nil hne
        simp only [List.cons_append, gaeAdv, List.append_eq]
        rw [hxl, List.getLast?_cons_cons, ← hxl]
        exact ih vs ds h1' h2'

/-- Witness for `gae_last_step` at the concrete batch
`rewards=[1,3]`, `values=[2,4]`, `dones=[0,1]`, bootstrap `7`:
the terminal last step contributes no bootstrap, giving `3 - 4 = -1`. -/
theorem gae_last_step_witness :
    (gaeAdv (1/2) (1/3) [1, 3] [2, 4] [0, 1] 7).getLast? = some (-1) := by
  have h := gae_last_step (1/2) (1/3) 3 4 1 7 [1] [2] [0] rfl rfl
  norm_num at h
  exact h

end XAgents

namespace XAgents

/-- Embedding of `ACER.flat_to_steps` (src/acer.py lines 76-89): a flat tensor of
`n_envs * n_steps` leading elements in `(actor, step)` order — flat index
`a * S + s` — is reshaped to `(n_envs, S, ...)` and split along the step
axis into `S` per-step tensors of `n_envs` elements each. -/
def flat_to_steps {α : Type} (E S : ℕ) (t : Fin (E * S) → α) :
    Fin S → Fin E → α :=
  fun s a => t ⟨a.1 * S + s.1, by
    have h1 : a.1 * S + s.1 < (a.1 + 1) * S := by
      rw [Nat.succ_mul]
      exact Nat.add_lt_add_left s.2 _
    exact Nat.lt_of_lt_of_le h1 (mul_le_mul_right' a.2 S)⟩

/-- Re-stacking at the end of `ACER.calculate_returns` (src/acer.py line
204): `tf.reshape(tf.stack(returns, 1), [-1])` stacks the `S` per-step
tensors along axis 1 into shape `(n_envs, S)` and flattens, sending step
tensor entry `(s, a)` back to flat index `a * S + s`. -/
def stack_steps {α : Type} (E S : ℕ) (steps : Fin S → Fin E → α) :
    Fin (E * S) → α :=
  fun i =>
    have hS : 0 < S := by
      rcases Nat.eq_zero_or_pos S with h | h
      · exact absurd i.2 (by simp [h])
      · exact h
    steps ⟨i.1 % S, Nat.mod_lt _ hS⟩ ⟨i.1 / S, (Nat.div_lt_iff_lt_mul hS).2 i.2⟩

/-- C7: round-trip invariant of the flatten/reshape pipeline — splitting a
flat `(actor*step)`-ordered tensor with `flat_to_steps` and re-stacking the
per-step tensors along the step axis reproduces the tensor exactly, for
every actor count, step count and element type. -/
theorem flat_to_steps_roundtrip {α : Type} (E S : ℕ) (t : Fin (E * S) → α) :
    stack_steps E S (flat_to_steps E S t) = t := by
  funext i
  simp only [stack_steps, flat_to_steps]
  congr 1
  exact Fin.ext (Nat.div_add_mod' i.1 S)

/-- Embedding of `tf.reduce_mean` on a flat list. -/
def listMean (l : List ℚ) : ℚ := l.sum / l.length

/-- Embedding of `ACER.clip_last_step` (src/acer.py lines 91-102) on a flat list of
`E * (S + 1)` elements in `(actor, step)` order: drop each actor's last
step, keeping flat index `a * (S + 1) + s` for `s < S`. -/
def clip_last_step (E S : ℕ) (t : List ℚ) : List ℚ :=
  (List.range E).flatMap (fun a => (List.range S).map (fun s => t.getD (a * (S + 1) + s) 0))

/-- Entropy term of `ACER.calculate_losses` (src/acer.py lines 230-234):
`mean(-sum(probs * log(probs + eps), axis=1))`. -/
def entropyOf (logFn : ℚ → ℚ) (eps : ℚ) (action_probs : List (List ℚ)) : ℚ :=
  listMean (action_probs.map (fun row => -(row.map (fun p => p * logFn (p + eps))).sum))

/-- Actor loss of `ACER.calculate_losses` (src/acer.py lines 236-241):
`-mean(log(selected_probs + eps) * stop_gradient(advantages *
min(importance_c, selected_importance)))`; `stop_gradient` is the identity
on values. -/
def actionLossOf (logFn : ℚ → ℚ) (eps c : ℚ)
    (selected_probs ρs advantages : List ℚ) : ℚ :=
  -listMean (List.zipWith (fun lp x => lp * x)
    (selected_probs.map (fun p => logFn (p + eps)))
    (List.zipWith (fun adv ρ => adv * truncatedImportance c ρ) advantages ρs))

/-- Raw critic loss of `ACER.calculate_losses` (src/acer.py lines 242-245,
before the `* self.value_loss_coef` factor):
`mean(square(stop_gradient(returns) - selected_critic_logits) * 0.5)`. -/
def rawCriticLoss (returns qs : List ℚ) : ℚ :=
  listMean (List.zipWith (fun r q => (r - q) * (r - q) * (1/2)) returns qs)

/-- Embedding of `ACER.calculate_losses` (src/acer.py lines 207-257), non-trust-region
branch.  Mirrors the source: `value_loss` is the raw critic loss already
multiplied by `value_loss_coef` (lines 242-246), and the returned combined
scalar is `action_loss + value_loss_coef * value_loss -
entropy_coef * entropy` (lines 253-257) — so the coefficient is applied a
second time there.  `values` is the flat length-`E*(S+1)` tensor clipped by
`clip_last_step` before forming advantages. -/
def acer_calculate_losses (E S : ℕ) (logFn : ℚ → ℚ)
    (eps c vCoef eCoef : ℚ) (action_probs : List (List ℚ))
    (values returns selected_probs ρs qs : List ℚ) : ℚ :=
  let entropy := entropyOf logFn eps action_probs
  let clipped := clip_last_step E S values
  let advantages := List.zipWith (· - ·) returns clipped
  let action_loss := actionLossOf logFn eps c selected_probs ρs advantages
  let value_loss := rawCriticLoss returns qs * vCoef
  action_loss + vCoef * value_loss - eCoef * entropy

/-- C2 evaluation at the failing input (`n_envs = n_steps = 1`,
`log ≡ 0`, `eps = 0`, `importance_c = 10`, `value_loss_coef = 2`,
`entropy_coef = 1`, `action_probs = [[1]]`, `values = [0,0]`,
`returns = [1]`, `selected_probs = [1]`, `selected_importance = [1]`,
`selected_critic_logits = [0]`): the code returns `2` because
`value_loss_coef` multiplies the raw critic loss `1/2` twice, while the
claimed formula `actor_loss + value_coef * critic_loss -
entropy_coef * entropy` evaluates to `1` on the same components. -/
theorem acer_loss_double_coef_eval :
    acer_calculate_losses 1 1 (fun _ => 0) 0 10 2 1 [[1]] [0, 0] [1] [1] [1] [0] = 2 ∧
    actionLossOf (fun _ => 0) 0 10 [1] [1] [1] + 2 * rawCriticLoss [1] [0]
      - 1 * entropyOf (fun _ => 0) 0 [[1]] = 1 := by
  constructor
  · simp only [acer_calculate_losses, entropyOf, actionLossOf, rawCriticLoss,
      clip_last_step, truncatedImportance, listMean]
    norm_num [List.range_succ]
  · simp only [entropyOf, actionLossOf, rawCriticLoss, truncatedImportance, listMean]
    norm_num

end XAgents

namespace XAgents

/-- Rowwise statistic `k` of `ACER.calculate_grads` (src/acer.py line 278):
`k = -avg_action_probs / (action_probs + epsilon)`, elementwise over one
sample row. -/
def trustRegionK (eps : ℚ) (avg probs : List ℚ) : List ℚ :=
  List.zipWith (fun ap p => -ap / (p + eps)) avg probs

/-- Embedding of `tf.reduce_sum(k * g, axis=-1)` for one sample row. -/
def dotProd (xs ys : List ℚ) : ℚ := (List.zipWith (· * ·) xs ys).sum

/-- Embedding of `tf.reduce_sum(tf.square(k), axis=-1)` for one sample row. -/
def sumSq (xs : List ℚ) : ℚ := (xs.map (fun x => x * x)).sum

/-- Adjustment `adj` of `ACER.calculate_grads` (src/acer.py lines 279-284)
for one sample row: `max(0, (sum(k*g) - delta) / (sum(k^2) + epsilon))`. -/
def trustRegionAdj (eps delta : ℚ) (k g : List ℚ) : ℚ :=
  max 0 ((dotProd k g - delta) / (sumSq k + eps))

/-- Projected gradient of `ACER.calculate_grads` (src/acer.py line 285) for
one sample row: `g - adj * k`, the adjustment broadcast over the action
dimension. -/
def trustRegionProj (eps delta : ℚ) (k g : List ℚ) : List ℚ :=
  List.zipWith (fun gi ki => gi - trustRegionAdj eps delta k g * ki) g k

lemma zipWith_left_id (f : ℚ → ℚ → ℚ) (hf : ∀ a b, f a b = a) :
    ∀ (gs ks : List ℚ), ks.length = gs.length → List.zipWith f gs ks = gs := by
  intro gs
  induction gs with
  | nil => intro ks h; simp
  | cons g gs ih =>
    intro ks h
    cases ks with
    | nil => simp at h
    | cons k ks =>
      simp only [List.zipWith_cons_cons, hf]
      exact congrArg (g :: ·) (ih ks (by simpa using h))

/-- C5: trust-region no-op — for every sample row whose unconstrained
gradient already satisfies the bound `sum(k * g) ≤ delta` (in particular
all rows once `delta` is large enough), the adjustment computed by
`calculate_grads` is exactly `0` and the projected gradient equals `g`
exactly. -/
theorem trust_region_noop (eps delta : ℚ) (avg probs g : List ℚ)
    (heps : 0 < eps)
    (hlen : (trustRegionK eps avg probs).length = g.length)
    (hbound : dotProd (trustRegionK eps avg probs) g ≤ delta) :
    trustRegionAdj eps delta (trustRegionK eps avg probs) g = 0 ∧
    trustRegionProj eps delta (trustRegionK eps avg probs) g = g := by
  have hden : 0 < sumSq (trustRegionK eps avg probs) + eps := by
    have hsq : 0 ≤ sumSq (trustRegionK eps avg probs) := by
      apply List.sum_nonneg
      intro x hx
      obtain ⟨y, _, hy⟩ := List.mem_map.1 hx
      rw [← hy]
      exact mul_self_nonneg y
    linarith
  have hadj : trustRegionAdj eps delta (trustRegionK eps avg probs) g = 0 := by
    apply max_eq_left
    apply div_nonpos_of_nonpos_of_nonneg
    · linarith
    · exact hden.le
  refine ⟨hadj, ?_⟩
  unfold trustRegionProj
  rw [hadj]
  exact zipWith_left_id _ (fun a b => by ring) g _ hlen

/-- Witness for `trust_region_noop` at `eps = 1`, `delta = 0`,
`avg_probs = [1]`, `probs = [0]`, `g = [0]`: the row statistic is
`k = [-1]`, the bound `sum(k*g) = 0 ≤ 0` holds, and the projection leaves
`g` unchanged. -/
theorem trust_region_noop_witness :
    trustRegionAdj 1 0 (trustRegionK 1 [1] [0]) [0] = 0 ∧
    trustRegionProj 1 0 (trustRegionK 1 [1] [0]) [0] = [0] := by
  apply trust_region_noop 1 0 [1] [0] [0]
  · norm_num
  · rfl
  · simp [trustRegionK, dotProd]

end XAgents

namespace XAgents

/-- C8: the two importance truncations of ACER are distinct and not
conflated — inside the Retrace recursion the correction weight is
`importanceBar ρ = min(1, ρ)` (used by `acerReturnsGo` above, src/acer.py
line 192), while the actor-gain weight is
`truncatedImportance c ρ = min(importance_c, ρ)` (used by `actionLossOf`
above, src/acer.py line 238); for every `ρ` with `1 < ρ < importance_c`
the first is `1`, the second is `ρ`, and the two differ. -/
theorem acer_two_truncations (c ρ : ℚ) (h1 : 1 < ρ) (h2 : ρ < c) :
    importanceBar ρ = 1 ∧ truncatedImportance c ρ = ρ ∧
    importanceBar ρ ≠ truncatedImportance c ρ := by
  have hbar : importanceBar ρ = 1 := min_eq_left h1.le
  have htr : truncatedImportance c ρ = ρ := min_eq_right h2.le
  refine ⟨hbar, htr, ?_⟩
  rw [hbar, htr]
  exact h1.ne

/-- Witness for `acer_two_truncations` at `importance_c = 10`, `ρ = 2`. -/
theorem acer_two_truncations_witness :
    importanceBar 2 = 1 ∧ truncatedImportance 10 2 = 2 ∧
    importanceBar 2 ≠ truncatedImportance 10 2 :=
  acer_two_truncations 10 2 (by norm_num) (by norm_num)

/-- Embedding of `ACER.add_grads` (src/acer.py lines 103-119).  The `assert` that at
least one per-parameter gradient is non-`None` is embedded as
`Except.error` carrying the assertion message; the remaining branches
mirror the source: both present → sum, exactly one present → that one. -/
def add_grads {α : Type} [Add α] : Option α → Option α → Except String α
  | none, none => Except.error "Gradients are None"
  | some g1, some g2 => Except.ok (g1 + g2)
  | some g1, none => Except.ok g1
  | none, some g2 => Except.ok g2

/-- C9: `add_grads` fails with the descriptive assertion message iff both
per-parameter gradients are `None`; when exactly one is present it returns
it unchanged, and when both are present it returns their sum — a
fully-`None` pair is a fatal error, never silently recovered. -/
theorem add_grads_spec {α : Type} [Add α] (g1 g2 : Option α) :
    ((∃ e, add_grads g1 g2 = Except.error e) ↔ g1 = none ∧ g2 = none) ∧
    (∀ a : α, g1 = some a → g2 = none → add_grads g1 g2 = Except.ok a) ∧
    (∀ b : α, g1 = none → g2 = some b → add_grads g1 g2 = Except.ok b) ∧
    (∀ a b : α, g1 = some a → g2 = some b → add_grads g1 g2 = Except.ok (a + b)) ∧
    add_grads (none : Option α) none = Except.error "Gradients are None" := by
  cases g1 <;> cases g2 <;>
    simp [add_grads]

/-- Witness for `add_grads_spec`: concrete sum and one-sided cases. -/
theorem add_grads_spec_witness :
    add_grads (some (1 : ℚ)) (some 2) = Except.ok 3 ∧
    add_grads (some (1 : ℚ)) none = Except.ok 1 := by
  constructor
  · have h := (add_grads_spec (some (1 : ℚ)) (some 2)).2.2.2.1 1 2 rfl rfl
    norm_num at h
    exact h
  · exact (add_grads_spec (some (1 : ℚ)) none).2.1 1 rfl rfl

end XAgents

namespace XAgents

/-- A gradient update performed during one `ACER.train_step` iteration:
either the single update from the freshly collected batch, or one of the
replay-based updates from sampled replay batches. -/
inductive UpdateEvent
  | fresh
  | replay
deriving DecidableEq

/-- Control flow of `ACER.train_step` (src/acer.py lines 346-369) as the
ordered sequence of gradient updates of one iteration: first the update
from the fresh batch, then — only when `replay_ratio > 0` and the replay
store occupancy has reached `initial_size` — one replay update per loop
iteration of `range(np.random.poisson(replay_ratio))`, whose draw `k` is
taken fresh at each call and passed here as a parameter. -/
def trainStepUpdates (replay_ratio : ℚ) (occupancy initial_size k : ℕ) :
    List UpdateEvent :=
  UpdateEvent.fresh ::
    (if 0 < replay_ratio ∧ initial_size ≤ occupancy
      then List.replicate k UpdateEvent.replay else [])

/-- C6: in every `train_step` iteration the first update (and the only
fresh-batch one) precedes all replay updates; the number of replay updates
is the Poisson draw `k` exactly when `replay_ratio > 0` and the store
occupancy has reached `initial_size`, and `0` otherwise — in particular a
not-yet-ready store is never sampled — and nothing else runs: the events
are exactly that sequence. -/
theorem acer_train_step_schedule (replay_ratio : ℚ)
    (occupancy initial_size k : ℕ) :
    (trainStepUpdates replay_ratio occupancy initial_size k).head?
        = some UpdateEvent.fresh ∧
    (trainStepUpdates replay_ratio occupancy initial_size k).count
        UpdateEvent.fresh = 1 ∧
    (trainStepUpdates replay_ratio occupancy initial_size k).count
        UpdateEvent.replay
      = (if 0 < replay_ratio ∧ initial_size ≤ occupancy then k else 0) ∧
    (trainStepUpdates replay_ratio occupancy initial_size k).length
      = 1 + (if 0 < replay_ratio ∧ initial_size ≤ occupancy then k else 0) := by
  by_cases h : 0 < replay_ratio ∧ initial_size ≤ occupancy <;>
    simp [trainStepUpdates, h, List.count_cons, List.count_replicate,
      Nat.add_comm]

end XAgents

namespace XAgents

/-- The advantages actually passed to `PPO.update_gradients` by
`PPO.run_ppo_epochs` (src/ppo.py lines 148-162): the raw per-mini-batch
`advantages_mb = returns_mb - old_values_mb`.  The standardization
expression on lines 151-153 is a bare statement whose value is never
assigned, so it does not affect what is passed. -/
def ppoMiniBatchAdvantages (returns_mb old_values_mb : List ℚ) : List ℚ :=
  List.zipWith (· - ·) returns_mb old_values_mb

/-- The discarded standardization expression of `PPO.run_ppo_epochs`
(src/ppo.py lines 151-153):
`(advantages_mb - mean(advantages_mb)) / (std(advantages_mb) +
advantage_epsilon)`.  The standard deviation is an external square-root
operation and is supplied as the value `stdVal`. -/
def standardizeAdvantages (stdVal eps : ℚ) (l : List ℚ) : List ℚ :=
  l.map (fun a => (a - listMean l) / (stdVal + eps))

/-- C4 evaluation at the failing input: for the mini-batch
`returns_mb = [3, 5]`, `old_values_mb = [2, 2]` with
`advantage_epsilon = 1e-8`, the advantages passed on are the raw `[1, 3]`;
their variance is `1` (so `std = 1`), the standardized advantages are
`[-1/(1+1e-8), 1/(1+1e-8)]`, and the two lists differ — the standardized
values are computed but discarded, never passed to `update_gradients`. -/
theorem ppo_advantages_not_standardized :
    ppoMiniBatchAdvantages [3, 5] [2, 2] = [1, 3] ∧
    listMean (List.map (fun a => (a - listMean [1, 3]) * (a - listMean [1, 3]))
      [1, 3]) = 1 * 1 ∧
    standardizeAdvantages 1 (1/100000000) [1, 3]
      = [-(100000000/100000001), 100000000/100000001] ∧
    ppoMiniBatchAdvantages [3, 5] [2, 2]
      ≠ standardizeAdvantages 1 (1/100000000) [1, 3] := by
  refine ⟨by norm_num [ppoMiniBatchAdvantages], ?_, ?_, ?_⟩
  · norm_num [listMean]
  · norm_num [standardizeAdvantages, listMean]
  · norm_num [ppoMiniBatchAdvantages, standardizeAdvantages, listMean]

end XAgents
